import Mathlib

/-!
Verification of the mplexporter traversal/normalization layer.

This file is a shallow embedding of the three source files of the
repository — src/mplexporter/utils.py, src/mplexporter/renderers/base.py
and src/mplexporter/renderer.py — together with theorems settling the
behavioural claims about them.  Python dictionaries are modelled as
association lists, numpy float arrays as lists of exact rational pairs,
exceptions as an explicit error type, and the draw hooks of the abstract
renderer as an emitted event trace.
-/

namespace Mplexporter

/-- Python exception values raised by the embedded code. -/
inductive PyErr
  | nameError (n : String)
  | keyError (k : String)
  | typeError (msg : String)
  | valueError (msg : String)
  | notImplemented (msg : String)
deriving DecidableEq

deriving instance DecidableEq for Except

/-- A two-dimensional point with exact rational coordinates (modelling a
row of a numpy float array of shape (N, 2)). -/
abbrev Point := ℚ × ℚ

/-- Keys of the LINESTYLES dictionary of utils.py: matplotlib linestyle
codes are either strings or the tuple (None, None). -/
inductive LsKey
  | str (s : String)
  | noneNone
deriving DecidableEq

/-- Embeds utils.many_to_one: convert a many-to-one mapping, given as
pairs of a key tuple and a value, to a one-to-one association list. -/
def many_to_one (input_dict : List (List LsKey × String)) : List (LsKey × String) :=
  (input_dict.map (fun kv => kv.1.map (fun k => (k, kv.2)))).flatten

/-- Embeds the LINESTYLES dictionary of utils.py. -/
def LINESTYLES : List (LsKey × String) :=
  many_to_one
    [([LsKey.str ("solid"), LsKey.str ("-"), LsKey.noneNone], "10,0"),
     ([LsKey.str ("dashed"), LsKey.str ("--")], "6,6"),
     ([LsKey.str ("dotted"), LsKey.str (":")], "2,2"),
     ([LsKey.str ("dashdot"), LsKey.str ("-.")], "4,4,2,4"),
     ([LsKey.str (""), LsKey.str (" "), LsKey.str ("None"), LsKey.str ("none")], "none")]

/-- Python d.get(k, None) on an association list with unique keys. -/
def dictGet (d : List (LsKey × String)) (k : LsKey) : Option String :=
  (d.find? (fun p => p.1 == k)).map (fun p => p.2)

/-- Names bound at module level in utils.py (its imports and its own
definitions).  The module never imports the warnings module even though
get_dasharray refers to it. -/
def utilsModuleNames : List String :=
  ["itertools", "io", "base64", "np", "matplotlib", "colorConverter", "Path",
   "MarkerStyle", "Affine2D", "ticker", "color_to_hex", "many_to_one",
   "LINESTYLES", "get_dasharray", "PATH_DICT", "SVG_path", "get_path_style",
   "get_line_style", "get_marker_style", "get_text_style",
   "get_axis_properties", "image_to_base64"]

/-- Evaluating the statement warnings.warn(msg) inside utils.py: the name
warnings is resolved through the module globals; utils.py never binds it,
so Python raises NameError before any warning is emitted. -/
def utilsWarn (_msg : String) : Except PyErr Unit :=
  if utilsModuleNames.contains ("warnings") then Except.ok ()
  else Except.error (PyErr.nameError ("warnings"))

/-- The slice of a matplotlib line/path object read by utils.get_dasharray:
the _dashSeq entry of obj.__dict__ (an absent entry and an entry holding
None are both modelled as none, matching the source's is-not-None test on
__dict__.get) and the value returned by obj.get_linestyle().  The optional
index argument i of get_dasharray (used only when get_linestyle returns a
sequence of styles) is exercised by no claim and is not modelled. -/
structure MplObj where
  dashSeq : Option (List Int)
  linestyle : LsKey
deriving DecidableEq

/-- Embeds the Python expression joining str of each sequence element with
commas. -/
def joinComma (seq : List Int) : String :=
  String.intercalate (",") (seq.map (fun n => toString n))

/-- Embeds utils.get_dasharray (with the optional index argument left at
its default None). -/
def get_dasharray (obj : MplObj) : Except PyErr String :=
  match obj.dashSeq with
  | some seq => Except.ok (joinComma seq)
  | none =>
    match dictGet LINESTYLES obj.linestyle with
    | some dasharray => Except.ok dasharray
    | none =>
      match utilsWarn ("dash style not understood: defaulting to solid.") with
      | Except.error e => Except.error e
      | Except.ok _ =>
        match dictGet LINESTYLES (LsKey.str ("-")) with
        | some dasharray => Except.ok dasharray
        | none => Except.error (PyErr.keyError ("-"))

/-- A Python color argument as passed to utils.color_to_hex: either None
or a string.  Other matplotlib color forms (RGB tuples, named colors,
single letters) are exercised by no claim and are not modelled. -/
inductive PyColor
  | pynone
  | str (s : String)
deriving DecidableEq

/-- Value of a hexadecimal digit character, as accepted by the Python int
conversion underlying matplotlib's hex-color parsing, computed from the
character's code point (48-57 are the decimal digits, 65-70 the upper-case
and 97-102 the lower-case hex letters). -/
def hexDigit? (c : Char) : Option Nat :=
  let d := c.toNat
  if 48 ≤ d ∧ d ≤ 57 then some (d - 48)
  else if 65 ≤ d ∧ d ≤ 70 then some (d - 55)
  else if 97 ≤ d ∧ d ≤ 102 then some (d - 87)
  else none

/-- Upper-case hexadecimal digit character of a value below 16, as produced
by the Python format specifier 02X, again through code points. -/
def hexChar (n : Nat) : Char :=
  if n < 10 then Char.ofNat (48 + n) else Char.ofNat (55 + n)

/-- Two-digit upper-case hexadecimal rendering of a byte value, the 02X
format used by color_to_hex. -/
def toHexByte (n : Nat) : String :=
  String.mk [hexChar (n / 16), hexChar (n % 16)]

/-- Python int() applied to a rational value: truncation toward zero. -/
def pyInt (q : ℚ) : Int :=
  if 0 ≤ q then ⌊q⌋ else ⌈q⌉

/-- Embeds matplotlib's colorConverter.to_rgb (an external collaborator) on
the inputs the claims exercise: a string of a hash character followed by six
hexadecimal digits yields the three channel values divided by 255.  The
channels are exact rationals; on these values the double-precision rounding
performed by the Python original is exact, since the relative error of
computing 255*(h/255.0) stays below half an ulp of h for every byte value h.
Color formats other than hex strings are outside all claims and are mapped
to ValueError. -/
def to_rgb (s : String) : Except PyErr (ℚ × ℚ × ℚ) :=
  match s.toList with
  | ['#', c1, c2, c3, c4, c5, c6] =>
    match hexDigit? c1, hexDigit? c2, hexDigit? c3,
          hexDigit? c4, hexDigit? c5, hexDigit? c6 with
    | some v1, some v2, some v3, some v4, some v5, some v6 =>
      Except.ok (((16 * v1 + v2 : ℕ) : ℚ) / 255, ((16 * v3 + v4 : ℕ) : ℚ) / 255,
        ((16 * v5 + v6 : ℕ) : ℚ) / 255)
    | _, _, _, _, _, _ => Except.error (PyErr.valueError ("invalid hex color"))
  | _ => Except.error (PyErr.valueError ("unmodelled color format"))

/-- One channel of the format expression of color_to_hex: int(255 * c)
rendered with the 02X format specifier. -/
def formatHexByte (q : ℚ) : String :=
  toHexByte (pyInt (255 * q)).toNat

/-- Embeds utils.color_to_hex. -/
def color_to_hex (color : PyColor) : Except PyErr String :=
  if color = PyColor.str ("none") ∨ color = PyColor.str ("None") ∨
      color = PyColor.pynone then
    Except.ok ("none")
  else
    match color with
    | PyColor.pynone => Except.error (PyErr.valueError ("unreachable"))
    | PyColor.str s =>
      match to_rgb s with
      | Except.error e => Except.error e
      | Except.ok (r, g, b) =>
        Except.ok ("#" ++ formatHexByte r ++ formatHexByte g ++ formatHexByte b)

/-- An already-canonical color string: a hash character followed by six
hexadecimal digits each of which is in the output alphabet of the
canonicalizer (digits and upper-case letters, so that re-rendering the
digit value reproduces the character). -/
def isCanonicalHexColor (s : String) : Bool :=
  match s.toList with
  | ['#', c1, c2, c3, c4, c5, c6] =>
    [c1, c2, c3, c4, c5, c6].all (fun c =>
      match hexDigit? c with
      | some v => hexChar v == c
      | none => false)
  | _ => false

example : color_to_hex PyColor.pynone = Except.ok ("none") := by decide

example : isCanonicalHexColor ("#0A9FC3") = true := by decide

example : isCanonicalHexColor ("#0a9fc3") = false := by decide

/-- A 3x3 affine transform matrix, row major, as used for matplotlib
Affine2D matrices and the path_transforms entries of
draw_path_collection. -/
structure Mat3 where
  m00 : ℚ
  m01 : ℚ
  m02 : ℚ
  m10 : ℚ
  m11 : ℚ
  m12 : ℚ
  m20 : ℚ
  m21 : ℚ
  m22 : ℚ
deriving DecidableEq

/-- The identity matrix np.eye(3). -/
def eye3 : Mat3 :=
  ⟨1, 0, 0, 0, 1, 0, 0, 0, 1⟩

/-- Application of an affine matrix to a point, as performed by
matplotlib's Affine2D(matrix).transform on each vertex row. -/
def applyAffine (t : Mat3) (p : Point) : Point :=
  (t.m00 * p.1 + t.m01 * p.2 + t.m02, t.m10 * p.1 + t.m11 * p.2 + t.m12)

/-- The matplotlib path command codes appearing in PATH_DICT. -/
inductive MplCode
  | MOVETO
  | LINETO
  | CURVE3
  | CURVE4
  | CLOSEPOLY
deriving DecidableEq

/-- Embeds the PATH_DICT dictionary of utils.py. -/
def PATH_DICT (code : MplCode) : Char :=
  match code with
  | MplCode.LINETO => 'L'
  | MplCode.MOVETO => 'M'
  | MplCode.CURVE3 => 'S'
  | MplCode.CURVE4 => 'C'
  | MplCode.CLOSEPOLY => 'Z'

/-- One unit yielded by matplotlib's Path.iter_segments: the chunk of
vertices belonging to one command (one point for MOVETO and LINETO, two
for CURVE3, three for CURVE4, and the stored dummy point for CLOSEPOLY)
paired with the command code. -/
abbrev Segment := List Point × MplCode

/-- Embeds utils.SVG_path.  The input is the stream of segments that
path.iter_segments(simplify=simplify) yields for the given matplotlib
path, so the simplify flag (forwarded verbatim to that external iterator)
needs no separate modelling.  The source applies the optional transform
with path.transformed(transform) before iterating; since the transform
acts vertex-wise, this is modelled by transforming every vertex chunk of
the stream.  The numpy reshape(-1, 2) of the chained coordinate values is
the concatenation of the per-segment point chunks. -/
def SVG_path (path : List Segment) (transform : Option Mat3) : List Point × List Char :=
  let p : List Segment := match transform with
    | none => path
    | some t => path.map (fun seg => (seg.1.map (applyAffine t), seg.2))
  let vc_tuples : List (List Point × Char) := p.map (fun seg =>
    ((if seg.2 = MplCode.CLOSEPOLY then [] else seg.1), PATH_DICT seg.2))
  if vc_tuples.isEmpty then
    ([], [])
  else
    ((vc_tuples.map (fun t => t.1)).flatten, vc_tuples.map (fun t => t.2))

/-- Number of entries of the vertex array consumed by one output command
character, as documented for draw_path and stated by the structural
invariant of the spec. -/
def charConsumed (c : Char) : Nat :=
  if c = 'M' then 1
  else if c = 'L' then 1
  else if c = 'S' then 2
  else if c = 'C' then 3
  else 0

/-- Number of points a segment chunk carries for each command code in a
well-formed iter_segments stream (CLOSEPOLY contributes none to the
output). -/
def codeConsumed (code : MplCode) : Nat :=
  match code with
  | MplCode.MOVETO => 1
  | MplCode.LINETO => 1
  | MplCode.CURVE3 => 2
  | MplCode.CURVE4 => 3
  | MplCode.CLOSEPOLY => 0

example :
    SVG_path [([(0, 0)], MplCode.MOVETO), ([(1, 0)], MplCode.LINETO),
      ([(0, 1)], MplCode.LINETO), ([(0, 0)], MplCode.CLOSEPOLY)] none =
    ([(0, 0), (1, 0), (0, 1)], ['M', 'L', 'L', 'Z']) := by decide

example : get_dasharray ⟨none, LsKey.str ("dashed")⟩ = Except.ok ("6,6") := by decide

example : get_dasharray ⟨none, LsKey.str ("bogus")⟩ =
    Except.error (PyErr.nameError ("warnings")) := by decide

example : get_dasharray ⟨some [5, 2], LsKey.str ("dashed")⟩ = Except.ok ("5,2") := by
  decide

/-- The slice of a matplotlib Axis object read by the grid predicates:
the private flag _gridOnMajor and the list returned by get_gridlines()
(only its truthiness, i.e. non-emptiness, is consulted). -/
structure MplAxis where
  gridOnMajor : Bool
  gridlines : List Nat
deriving DecidableEq

/-- The slice of a matplotlib Axes object read by the static renderer
predicates of renderers/base.py (identical in renderer.py). -/
structure MplAxes where
  xaxis : MplAxis
  yaxis : MplAxis
  navigate : Bool
deriving DecidableEq

/-- Embeds Renderer.ax_zoomable: bool(ax and ax.get_navigate()).  A None
axes short-circuits the conjunction to a falsy value. -/
def ax_zoomable (ax : Option MplAxes) : Bool :=
  match ax with
  | none => false
  | some a => a.navigate

/-- Embeds Renderer.ax_has_xgrid:
bool(ax and ax.xaxis._gridOnMajor and ax.yaxis.get_gridlines()).  Note the
final conjunct reads the y axis. -/
def ax_has_xgrid (ax : Option MplAxes) : Bool :=
  match ax with
  | none => false
  | some a => a.xaxis.gridOnMajor && !a.yaxis.gridlines.isEmpty

/-- Embeds Renderer.ax_has_ygrid:
bool(ax and ax.yaxis._gridOnMajor and ax.yaxis.get_gridlines()). -/
def ax_has_ygrid (ax : Option MplAxes) : Bool :=
  match ax with
  | none => false
  | some a => a.yaxis.gridOnMajor && !a.yaxis.gridlines.isEmpty

/-- Figure and axes properties dictionaries, opaque to the traversal
controller; the empty dictionary assigned on scope exit is the empty
list. -/
abbrev Props := List (String × Nat)

/-- The mutable attributes of a Renderer instance touched by draw_figure
and draw_axes.  The class defines no constructor, so each attribute starts
out absent (outer none); hasattr distinguishes an absent attribute from
one holding None (some none). -/
structure RState where
  currentFig : Option (Option Nat)
  figProperties : Option Props
  currentAx : Option (Option Nat)
  axProperties : Option Props
deriving DecidableEq

/-- Renderer state of a freshly constructed instance: no attribute set. -/
def initRState : RState :=
  ⟨none, none, none, none⟩

/-- Observable events of a traversal: warnings and invocations of the
open/close hooks that subclasses override. -/
inductive Ev
  | warned (msg : String)
  | openFigure (fig : Nat)
  | closeFigure (fig : Nat)
  | openAxes (ax : Nat)
  | closeAxes (ax : Nat)
deriving DecidableEq

/-- Result of running a piece of traversal code: the final renderer state,
the events emitted in order, and the exception propagating out of it, if
any (exceptions are opaque tokens). -/
abbrev Outcome := RState × List Ev × Option Nat

/-- The nested drawing work performed inside a with draw_figure(...) or
with draw_axes(...) block, as an arbitrary state transformer that may
raise. -/
abbrev Body := RState → Outcome

/-- The warning emitted by the re-entrancy guard of draw_figure: fires
exactly when the _current_fig attribute exists and is not None. -/
def figWarn (s : RState) : List Ev :=
  match s.currentFig with
  | some (some _) => [Ev.warned ("figure embedded in figure: something is wrong")]
  | _ => []

/-- The warning emitted by the re-entrancy guard of draw_axes. -/
def axWarn (s : RState) : List Ev :=
  match s.currentAx with
  | some (some _) => [Ev.warned ("axes embedded in axes: something is wrong")]
  | _ => []

/-- Embeds Renderer.draw_figure of renderers/base.py used as a context
manager around the given nested body (renderer.py is identical apart from
the properties bookkeeping).  Python's contextlib runs the generator up to
the yield on entry; if the body raises, the exception is thrown back into
the generator at the yield and, the generator having no try/finally,
propagates at once: the statements after the yield (close_figure and the
resets) do not run. -/
def draw_figure (fig : Nat) (properties : Props) (body : Body) (s : RState) : Outcome :=
  let w := figWarn s
  let entered : RState := { s with currentFig := some (some fig),
                                   figProperties := some properties }
  let r := body entered
  match r.2.2 with
  | some e => (r.1, w ++ [Ev.openFigure fig] ++ r.2.1, some e)
  | none =>
    ({ r.1 with currentFig := some none, figProperties := some [] },
     w ++ [Ev.openFigure fig] ++ r.2.1 ++ [Ev.closeFigure fig], none)

/-- Embeds Renderer.draw_axes of renderers/base.py used as a context
manager around the given nested body, with the same exception semantics as
draw_figure. -/
def draw_axes (ax : Nat) (properties : Props) (body : Body) (s : RState) : Outcome :=
  let w := axWarn s
  let entered : RState := { s with currentAx := some (some ax),
                                   axProperties := some properties }
  let r := body entered
  match r.2.2 with
  | some e => (r.1, w ++ [Ev.openAxes ax] ++ r.2.1, some e)
  | none =>
    ({ r.1 with currentAx := some none, axProperties := some [] },
     w ++ [Ev.openAxes ax] ++ r.2.1 ++ [Ev.closeAxes ax], none)

/-- A value stored in a style dictionary: a string, an exact rational
number, or an opaque value copied through unchanged (used for the alpha
and zorder entries that draw_path_collection forwards verbatim). -/
inductive SVal
  | s (v : String)
  | q (v : ℚ)
  | tok (n : Nat)
deriving DecidableEq

/-- A Python dictionary of style attributes, modelled as an association
list in insertion order with unique keys. -/
abbrev StyleDict := List (String × SVal)

/-- Dictionary lookup (None when the key is absent): the first entry with
the given key, the keys being unique. -/
def dlookup (d : StyleDict) (k : String) : Option SVal :=
  match d with
  | [] => none
  | p :: rest => if p.1 = k then some p.2 else dlookup rest k

/-- Dictionary item assignment d[k] = v: overwrite in place when the key
exists, append otherwise. -/
def dinsert (d : StyleDict) (k : String) (v : SVal) : StyleDict :=
  if (dlookup d k).isSome then
    d.map (fun p => if p.1 = k then (k, v) else p)
  else
    d ++ [(k, v)]

/-- Dictionary key removal, the destructive part of d.pop(k). -/
def dremove (d : StyleDict) (k : String) : StyleDict :=
  d.filter (fun p => p.1 ≠ k)

/-- One invocation of the abstract primitive draw_path(data, coordinates,
pathcodes, style, offset, offset_coordinates), recorded by the default
algorithms of the traversal controller.  A concrete renderer must
implement draw_path; the default draw_line and draw_path_collection are
specified by the sequence of these calls they emit. -/
structure DrawPathCall where
  vertices : List Point
  coordinates : String
  pathcodes : List Char
  style : StyleDict
  offset : Option Point
  offset_coordinates : String
deriving DecidableEq

/-- Embeds Renderer.draw_line of renderers/base.py.  The first component
of the result lists the draw_path calls emitted before control returns or
an exception is raised; the second is the exception, if any.  The Python
expression dict(facecolor='none', **style) raises TypeError when style
itself binds facecolor (a duplicate keyword argument); otherwise it builds
the dictionary with facecolor first, and the two pop-and-assign statements
move color to edgecolor and linewidth to edgewidth (dict.pop raising
KeyError when the key is missing). -/
def draw_line (data : List Point) (coordinates : String) (style : StyleDict) :
    List DrawPathCall × Option PyErr :=
  let pathcodes := 'M' :: List.replicate (data.length - 1) 'L'
  if (dlookup style ("facecolor")).isSome then
    ([], some (PyErr.typeError ("dict got multiple values for keyword argument")))
  else
    let pathstyle : StyleDict := ("facecolor", SVal.s ("none")) :: style
    match dlookup pathstyle ("color") with
    | none => ([], some (PyErr.keyError ("color")))
    | some colorv =>
      let ps1 := dinsert (dremove pathstyle ("color")) ("edgecolor") colorv
      match dlookup ps1 ("linewidth") with
      | none => ([], some (PyErr.keyError ("linewidth")))
      | some lwv =>
        let ps2 := dinsert (dremove ps1 ("linewidth")) ("edgewidth") lwv
        ([{ vertices := data, coordinates := coordinates, pathcodes := pathcodes,
            style := ps2, offset := none, offset_coordinates := "data" }], none)

/-- A path of a collection: the (data, pathcodes) tuple that
draw_path_collection receives for each member. -/
abbrev PathTup := List Point × List Char

/-- The styles dictionary passed to draw_path_collection: per-member color
and width sequences, plus alpha and zorder values that the source reads
whole (without broadcasting), modelled as opaque tokens. -/
structure CollStyles where
  edgecolor : List PyColor
  facecolor : List PyColor
  linewidth : List ℚ
  alpha : Nat
  zorder : Nat
deriving DecidableEq

/-- Element i of the infinite cyclic repetition itertools.cycle(l), for a
non-empty l; the default is returned only for an empty list, which the
caller rules out. -/
def cycGet (l : List α) (d : α) (i : Nat) : α :=
  l.getD (i % l.length) d

/-- The tuple type produced by Renderer._iter_path_collection: a path, its
transform, its offset, an edgecolor, a linewidth and a facecolor. -/
abbrev CollTup := PathTup × Mat3 × Point × PyColor × ℚ × PyColor

/-- Embeds Renderer._iter_path_collection.  The source computes
islice(izip(imap(cycle, elements)), N) with N = max(len(paths),
len(offsets)) (the Python 2 spellings of zip and map): if every element
sequence is non-empty this yields exactly N tuples whose i-th components
are the cyclic elements at index i, i.e. at index i modulo the sequence
length; if any sequence is empty the zip of cycles is empty.  An empty
path_transforms is replaced by the single identity matrix and empty color
sequences (np.size(...) == 0) by the single entry 'none' before
cycling. -/
def iter_path_collection (paths : List PathTup) (path_transforms : List Mat3)
    (offsets : List Point) (styles : CollStyles) : List CollTup :=
  let N := max paths.length offsets.length
  let ptrs : List Mat3 := if path_transforms.isEmpty then [eye3] else path_transforms
  let edgecolor : List PyColor :=
    if styles.edgecolor.isEmpty then [PyColor.str ("none")] else styles.edgecolor
  let facecolor : List PyColor :=
    if styles.facecolor.isEmpty then [PyColor.str ("none")] else styles.facecolor
  if paths.isEmpty || ptrs.isEmpty || offsets.isEmpty || edgecolor.isEmpty ||
      styles.linewidth.isEmpty || facecolor.isEmpty then
    []
  else
    (List.range N).map (fun i =>
      (cycGet paths ([], []) i, cycGet ptrs eye3 i, cycGet offsets (0, 0) i,
       cycGet edgecolor (PyColor.str ("none")) i, cycGet styles.linewidth 0 i,
       cycGet facecolor (PyColor.str ("none")) i))

/-- The body of the loop of Renderer.draw_path_collection for one tuple of
the iterator: transform the vertices, rewrite a declared figure coordinate
space to points, convert the two colors (color_to_hex may raise), assemble
the style dictionary with the fixed dash pattern and the verbatim alpha
and zorder entries, and call draw_path with the offset. -/
def collEmit (path_coordinates : String) (offset_coordinates : String)
    (styles : CollStyles) : CollTup → Except PyErr DrawPathCall
  | (path, path_transform, offset, ec0, lw, fc0) =>
    let vertices := path.1.map (applyAffine path_transform)
    let pc := if path_coordinates = "figure" then "points" else path_coordinates
    match color_to_hex ec0, color_to_hex fc0 with
    | Except.error e, _ => Except.error e
    | Except.ok _, Except.error e => Except.error e
    | Except.ok ec, Except.ok fc =>
      Except.ok
        { vertices := vertices, coordinates := pc, pathcodes := path.2,
          style := [("edgecolor", SVal.s ec), ("facecolor", SVal.s fc),
                    ("edgewidth", SVal.q lw), ("dasharray", SVal.s ("10,0")),
                    ("alpha", SVal.tok styles.alpha), ("zorder", SVal.tok styles.zorder)],
          offset := some offset, offset_coordinates := offset_coordinates }

/-- The loop of Renderer.draw_path_collection: emit one draw_path call per
tuple, stopping with the exception if a color conversion raises. -/
def collLoop (path_coordinates : String) (offset_coordinates : String)
    (styles : CollStyles) : List CollTup → List DrawPathCall × Option PyErr
  | [] => ([], none)
  | t :: ts =>
    match collEmit path_coordinates offset_coordinates styles t with
    | Except.error e => ([], some e)
    | Except.ok c =>
      let r := collLoop path_coordinates offset_coordinates styles ts
      (c :: r.1, r.2)

/-- Embeds Renderer.draw_path_collection of renderers/base.py: the
NotImplementedError guard for offset_order == "before" runs before the
iterator is built, so no draw_path call is emitted in that case. -/
def draw_path_collection (paths : List PathTup) (path_coordinates : String)
    (path_transforms : List Mat3) (offsets : List Point)
    (offset_coordinates : String) (offset_order : String) (styles : CollStyles) :
    List DrawPathCall × Option PyErr :=
  if offset_order = "before" then
    ([], some (PyErr.notImplemented ("offset before transform")))
  else
    collLoop path_coordinates offset_coordinates styles
      (iter_path_collection paths path_transforms offsets styles)

/-! Helper lemmas about the dictionary model. -/

theorem dlookup_overwrite_self (d : StyleDict) (k : String) (v : SVal)
    (h : (dlookup d k).isSome = true) :
    dlookup (d.map (fun p => if p.1 = k then (k, v) else p)) k = some v := by
  induction d with
  | nil => simp [dlookup] at h
  | cons p rest ih =>
    by_cases hp : p.1 = k
    · simp [dlookup, hp]
    · simp only [dlookup, if_neg hp] at h
      simp [dlookup, hp, ih h]

theorem dlookup_overwrite_ne (d : StyleDict) (k k' : String) (v : SVal)
    (h : k' ≠ k) :
    dlookup (d.map (fun p => if p.1 = k then (k, v) else p)) k' = dlookup d k' := by
  induction d with
  | nil => rfl
  | cons p rest ih =>
    by_cases hp : p.1 = k
    · simp [dlookup, hp, Ne.symm h, ih]
    · by_cases hp' : p.1 = k'
      · simp [dlookup, hp, hp', h]
      · simp [dlookup, hp, hp', ih]

theorem dlookup_append_self (d : StyleDict) (k : String) (v : SVal)
    (h : dlookup d k = none) :
    dlookup (d ++ [(k, v)]) k = some v := by
  induction d with
  | nil => simp [dlookup]
  | cons p rest ih =>
    by_cases hp : p.1 = k
    · simp [dlookup, hp] at h
    · simp only [dlookup, if_neg hp] at h
      simp [dlookup, hp, ih h]

theorem dlookup_append_ne (d : StyleDict) (k k' : String) (v : SVal)
    (h : k' ≠ k) :
    dlookup (d ++ [(k, v)]) k' = dlookup d k' := by
  induction d with
  | nil => simp [dlookup, Ne.symm h]
  | cons p rest ih =>
    by_cases hp' : p.1 = k'
    · simp [dlookup, hp']
    · simp [dlookup, hp', ih]

theorem dlookup_dinsert_self (d : StyleDict) (k : String) (v : SVal) :
    dlookup (dinsert d k v) k = some v := by
  unfold dinsert
  by_cases h : (dlookup d k).isSome
  · rw [if_pos h]
    exact dlookup_overwrite_self d k v h
  · rw [if_neg h]
    refine dlookup_append_self d k v ?_
    cases hd : dlookup d k
    · rfl
    · rw [hd] at h
      simp at h

theorem dlookup_dinsert_ne (d : StyleDict) (k k' : String) (v : SVal)
    (h : k' ≠ k) : dlookup (dinsert d k v) k' = dlookup d k' := by
  unfold dinsert
  by_cases hk : (dlookup d k).isSome
  · rw [if_pos hk]
    exact dlookup_overwrite_ne d k k' v h
  · rw [if_neg hk]
    exact dlookup_append_ne d k k' v h

theorem dlookup_dremove_ne (d : StyleDict) (k k' : String) (h : k' ≠ k) :
    dlookup (dremove d k) k' = dlookup d k' := by
  induction d with
  | nil => rfl
  | cons p rest ih =>
    unfold dremove at ih ⊢
    rw [List.filter_cons]
    by_cases hp : p.1 = k
    · have h1 : (decide (p.1 ≠ k)) = false := by simp [hp]
      have hp' : ¬p.1 = k' := by
        rw [hp]
        exact Ne.symm h
      rw [h1, if_neg (by simp)]
      rw [ih]
      simp [dlookup, hp']
    · have h1 : (decide (p.1 ≠ k)) = true := by simp [hp]
      rw [h1, if_pos rfl]
      by_cases hp' : p.1 = k'
      · simp [dlookup, hp']
      · simp only [ne_eq, decide_not] at ih
        simp [dlookup, hp', ih]

/-! Claim theorems. -/

/-- C9: for an input path with no segments, SVG_path returns an empty
vertex array and an empty command list rather than raising, with or
without a transform. -/
theorem c9_empty_path_is_ok :
    SVG_path [] none = ([], []) ∧ ∀ t : Mat3, SVG_path [] (some t) = ([], []) :=
  ⟨rfl, fun _ => rfl⟩

/-- C2 (code bug): the claim says an unrecognized linestyle is recovered
locally with a warning and the solid fallback "10,0"; but utils.py never
imports the warnings module it calls on that branch, so get_dasharray
raises NameError there instead of returning.  This theorem evaluates the
embedded code at such an input and records that the module import list
lacks the name warnings. -/
theorem c2_unknown_dash_raises_nameerror :
    get_dasharray ⟨none, LsKey.str ("bogus")⟩ =
      Except.error (PyErr.nameError ("warnings")) ∧
    utilsModuleNames.contains ("warnings") = false := by
  decide

/-- C6: the named-dash lookup maps solid to "10,0", dashed to "6,6",
dotted to "2,2", dashdot to "4,4,2,4" and each of "", " ", "None", "none"
to "none"; and an object carrying an explicit non-None dash sequence makes
get_dasharray return that sequence joined with commas, bypassing the
named-style lookup entirely. -/
theorem c6_dash_lookup_and_override (obj : MplObj) (seq : List Int)
    (h : obj.dashSeq = some seq) :
    dictGet LINESTYLES (LsKey.str ("solid")) = some ("10,0") ∧
    dictGet LINESTYLES (LsKey.str ("dashed")) = some ("6,6") ∧
    dictGet LINESTYLES (LsKey.str ("dotted")) = some ("2,2") ∧
    dictGet LINESTYLES (LsKey.str ("dashdot")) = some ("4,4,2,4") ∧
    dictGet LINESTYLES (LsKey.str ("")) = some ("none") ∧
    dictGet LINESTYLES (LsKey.str (" ")) = some ("none") ∧
    dictGet LINESTYLES (LsKey.str ("None")) = some ("none") ∧
    dictGet LINESTYLES (LsKey.str ("none")) = some ("none") ∧
    get_dasharray obj = Except.ok (joinComma seq) := by
  refine ⟨by decide, by decide, by decide, by decide, by decide, by decide,
    by decide, by decide, ?_⟩
  unfold get_dasharray
  rw [h]

/-- C6 witness: a concrete object whose explicit dash sequence [5, 2]
overrides its dashed linestyle. -/
theorem c6_dash_lookup_and_override_witness :
    (⟨some [5, 2], LsKey.str ("dashed")⟩ : MplObj).dashSeq = some [5, 2] ∧
    get_dasharray ⟨some [5, 2], LsKey.str ("dashed")⟩ = Except.ok (joinComma [5, 2]) :=
  ⟨rfl, (c6_dash_lookup_and_override ⟨some [5, 2], LsKey.str ("dashed")⟩ [5, 2]
    rfl).2.2.2.2.2.2.2.2⟩

/-- C10: for every non-null axes object, ax_has_xgrid is true exactly when
the x axis _gridOnMajor flag is set and the y axis gridline list is
non-empty, and ax_has_ygrid has the same form with the y axis flag: the
two predicates differ only in which flag they test and both consult the
y axis gridline list. -/
theorem c10_xgrid_reads_yaxis_gridlines (a : MplAxes) :
    ax_has_xgrid (some a) = (a.xaxis.gridOnMajor && !a.yaxis.gridlines.isEmpty) ∧
    ax_has_ygrid (some a) = (a.yaxis.gridOnMajor && !a.yaxis.gridlines.isEmpty) ∧
    (ax_has_xgrid (some a) = true ↔
      a.xaxis.gridOnMajor = true ∧ a.yaxis.gridlines ≠ []) := by
  refine ⟨rfl, rfl, ?_⟩
  simp [ax_has_xgrid]

/-- C4: draw_path_collection invoked with offset_order equal to "before"
fails with NotImplementedError before emitting any draw_path call,
whatever the remaining arguments are. -/
theorem c4_offset_before_not_implemented (paths : List PathTup)
    (path_coordinates : String) (path_transforms : List Mat3)
    (offsets : List Point) (offset_coordinates : String) (styles : CollStyles) :
    draw_path_collection paths path_coordinates path_transforms offsets
      offset_coordinates ("before") styles =
      ([], some (PyErr.notImplemented ("offset before transform"))) := by
  unfold draw_path_collection
  simp

/-- C1 counterexample: a nested body that raises (exception token 1)
inside draw_figure 7 and inside draw_axes 4, starting from a fresh
renderer.  The exception propagates, the close hook is never invoked and
the current reference is left pointing at the figure or axes instead of
being reset to None — refuting the claim that the close hook runs and the
reference is cleared on every exit path. -/
theorem c1_ctrex_exception_skips_close :
    (draw_figure 7 [] (fun s => (s, [], some 1)) initRState).2.2 = some 1 ∧
    (draw_figure 7 [] (fun s => (s, [], some 1)) initRState).1.currentFig =
      some (some 7) ∧
    Ev.closeFigure 7 ∉ (draw_figure 7 [] (fun s => (s, [], some 1)) initRState).2.1 ∧
    (draw_axes 4 [] (fun s => (s, [], some 1)) initRState).2.2 = some 1 ∧
    (draw_axes 4 [] (fun s => (s, [], some 1)) initRState).1.currentAx =
      some (some 4) ∧
    Ev.closeAxes 4 ∉ (draw_axes 4 [] (fun s => (s, [], some 1)) initRState).2.1 := by
  decide

/-- C1 (amended): on the normal exit path draw_figure and draw_axes call
the close hook and reset the current reference to None; but when the
nested body raises, the exception propagates out of the yield, the trace
ends without the close hook having been appended, and the state is left
exactly as the body left it (in particular the current reference is not
cleared). -/
theorem c1_scope_exit_paths (fig ax : Nat) (pf pa : Props) (bf ba : Body)
    (s : RState) :
    ((bf { s with currentFig := some (some fig), figProperties := some pf }).2.2 =
        none →
      (draw_figure fig pf bf s).1.currentFig = some none ∧
      Ev.closeFigure fig ∈ (draw_figure fig pf bf s).2.1 ∧
      (draw_figure fig pf bf s).2.2 = none) ∧
    (∀ e,
      (bf { s with currentFig := some (some fig), figProperties := some pf }).2.2 =
          some e →
      (draw_figure fig pf bf s).2.2 = some e ∧
      (draw_figure fig pf bf s).1 =
        (bf { s with currentFig := some (some fig), figProperties := some pf }).1 ∧
      (draw_figure fig pf bf s).2.1 =
        figWarn s ++ [Ev.openFigure fig] ++
          (bf { s with currentFig := some (some fig), figProperties := some pf }).2.1) ∧
    ((ba { s with currentAx := some (some ax), axProperties := some pa }).2.2 =
        none →
      (draw_axes ax pa ba s).1.currentAx = some none ∧
      Ev.closeAxes ax ∈ (draw_axes ax pa ba s).2.1 ∧
      (draw_axes ax pa ba s).2.2 = none) ∧
    (∀ e,
      (ba { s with currentAx := some (some ax), axProperties := some pa }).2.2 =
          some e →
      (draw_axes ax pa ba s).2.2 = some e ∧
      (draw_axes ax pa ba s).1 =
        (ba { s with currentAx := some (some ax), axProperties := some pa }).1 ∧
      (draw_axes ax pa ba s).2.1 =
        axWarn s ++ [Ev.openAxes ax] ++
          (ba { s with currentAx := some (some ax), axProperties := some pa }).2.1) := by
  refine ⟨?_, ?_, ?_, ?_⟩
  · intro h
    simp only [draw_figure]
    rw [h]
    simp
  · intro e h
    simp only [draw_figure]
    rw [h]
    simp
  · intro h
    simp only [draw_axes]
    rw [h]
    simp
  · intro e h
    simp only [draw_axes]
    rw [h]
    simp

/-- C1 witness: the normal path of draw_figure closes and resets, and the
raising path of draw_axes keeps the exception with the open events only,
both at concrete inputs. -/
theorem c1_scope_exit_paths_witness :
    (((fun s => (s, [], none)) (⟨some (some 7), some [], none, none⟩ : RState) :
        Outcome).2.2 = none ∧
      ((draw_figure 7 [] (fun s => (s, [], none)) initRState).1.currentFig =
          some none ∧
        Ev.closeFigure 7 ∈
          (draw_figure 7 [] (fun s => (s, [], none)) initRState).2.1 ∧
        (draw_figure 7 [] (fun s => (s, [], none)) initRState).2.2 = none)) ∧
    (((fun s => (s, [], some 1)) (⟨none, none, some (some 4), some []⟩ : RState) :
        Outcome).2.2 = some 1 ∧
      ((draw_axes 4 [] (fun s => (s, [], some 1)) initRState).2.2 = some 1 ∧
        (draw_axes 4 [] (fun s => (s, [], some 1)) initRState).1 =
          ((fun s => (s, [], some 1)) (⟨none, none, some (some 4), some []⟩ :
            RState) : Outcome).1 ∧
        (draw_axes 4 [] (fun s => (s, [], some 1)) initRState).2.1 =
          axWarn initRState ++ [Ev.openAxes 4] ++
            ((fun s => (s, [], some 1)) (⟨none, none, some (some 4), some []⟩ :
              RState) : Outcome).2.1)) :=
  ⟨⟨rfl, (c1_scope_exit_paths 7 4 [] [] (fun s => (s, [], none))
      (fun s => (s, [], some 1)) initRState).1 rfl⟩,
   ⟨rfl, (c1_scope_exit_paths 7 4 [] [] (fun s => (s, [], none))
      (fun s => (s, [], some 1)) initRState).2.2.2 1 rfl⟩⟩

/-- C5 counterexample: a style dictionary that carries color and linewidth
but also a facecolor entry makes dict(facecolor='none', **style) raise
TypeError (duplicate keyword argument), so draw_line emits no draw_path
call at all instead of the single claimed call. -/
theorem c5_ctrex_style_with_facecolor :
    draw_line [(0, 0), (1, 1), (2, 0)] ("data")
      [("color", SVal.s ("#0000FF")), ("linewidth", SVal.q 2),
       ("facecolor", SVal.s ("#FF0000"))] =
      ([], some (PyErr.typeError ("dict got multiple values for keyword argument"))) := by
  decide

/-- C5 (amended): for every non-empty (N, 2) data array and style mapping
that contains color and linewidth but no facecolor key (the source raises
TypeError on a duplicate facecolor keyword), draw_line emits exactly one
draw_path call whose commands are one Move followed by N-1 Line commands,
whose vertices are the data unchanged, and whose style carries the color
as edgecolor, the linewidth as edgewidth, and facecolor "none". -/
theorem c5_draw_line_decomposes (data : List Point) (coordinates : String)
    (style : StyleDict) (cv lv : SVal)
    (_hdata : data ≠ [])
    (hc : dlookup style ("color") = some cv)
    (hl : dlookup style ("linewidth") = some lv)
    (hf : dlookup style ("facecolor") = none) :
    ∃ call : DrawPathCall,
      draw_line data coordinates style = ([call], none) ∧
      call.vertices = data ∧
      call.coordinates = coordinates ∧
      call.pathcodes = 'M' :: List.replicate (data.length - 1) 'L' ∧
      dlookup call.style ("edgecolor") = some cv ∧
      dlookup call.style ("edgewidth") = some lv ∧
      dlookup call.style ("facecolor") = some (SVal.s ("none")) ∧
      call.offset = none := by
  have hfs : (dlookup style ("facecolor")).isSome = false := by
    rw [hf]
    rfl
  have hps : dlookup (("facecolor", SVal.s ("none")) :: style) ("color") = some cv := by
    simp only [dlookup]
    rw [if_neg (by decide)]
    exact hc
  have hps1 : dlookup
      (dinsert (dremove (("facecolor", SVal.s ("none")) :: style) ("color"))
        ("edgecolor") cv) ("linewidth") = some lv := by
    rw [dlookup_dinsert_ne _ _ _ _ (by decide),
      dlookup_dremove_ne _ _ _ (by decide)]
    simp only [dlookup]
    rw [if_neg (by decide)]
    exact hl
  unfold draw_line
  rw [hfs]
  simp only [Bool.false_eq_true, if_false, hps, hps1]
  refine ⟨_, rfl, rfl, rfl, rfl, ?_, ?_, ?_, rfl⟩
  · rw [dlookup_dinsert_ne _ _ _ _ (by decide),
      dlookup_dremove_ne _ _ _ (by decide),
      dlookup_dinsert_self]
  · rw [dlookup_dinsert_self]
  · rw [dlookup_dinsert_ne _ _ _ _ (by decide),
      dlookup_dremove_ne _ _ _ (by decide),
      dlookup_dinsert_ne _ _ _ _ (by decide),
      dlookup_dremove_ne _ _ _ (by decide)]
    simp [dlookup]

/-- C5 witness: the data and style of the spec example, yielding commands
Move, Line, Line with edgecolor mapped from the color entry. -/
theorem c5_draw_line_decomposes_witness :
    (([(0, 0), (1, 1), (2, 0)] : List Point) ≠ [] ∧
      dlookup [("color", SVal.s ("#0000FF")), ("linewidth", SVal.q 2)] ("color") =
        some (SVal.s ("#0000FF")) ∧
      dlookup [("color", SVal.s ("#0000FF")), ("linewidth", SVal.q 2)]
        ("linewidth") = some (SVal.q 2) ∧
      dlookup [("color", SVal.s ("#0000FF")), ("linewidth", SVal.q 2)]
        ("facecolor") = none) ∧
    (∃ call : DrawPathCall,
      draw_line [(0, 0), (1, 1), (2, 0)] ("data")
        [("color", SVal.s ("#0000FF")), ("linewidth", SVal.q 2)] = ([call], none) ∧
      call.vertices = [(0, 0), (1, 1), (2, 0)] ∧
      call.coordinates = "data" ∧
      call.pathcodes = 'M' :: List.replicate (([(0, 0), (1, 1), (2, 0)] :
        List Point).length - 1) 'L' ∧
      dlookup call.style ("edgecolor") = some (SVal.s ("#0000FF")) ∧
      dlookup call.style ("edgewidth") = some (SVal.q 2) ∧
      dlookup call.style ("facecolor") = some (SVal.s ("none")) ∧
      call.offset = none) :=
  ⟨⟨by decide, by decide, by decide, by decide⟩,
    c5_draw_line_decomposes [(0, 0), (1, 1), (2, 0)] ("data")
      [("color", SVal.s ("#0000FF")), ("linewidth", SVal.q 2)]
      (SVal.s ("#0000FF")) (SVal.q 2) (by decide) (by decide) (by decide)
      (by decide)⟩

theorem charConsumed_PATH_DICT (c : MplCode) :
    charConsumed (PATH_DICT c) = codeConsumed c := by
  cases c <;> decide

theorem PATH_DICT_eq_Z (c : MplCode) :
    PATH_DICT c = 'Z' ↔ c = MplCode.CLOSEPOLY := by
  cases c <;> decide

theorem svg_segments_invariant (l : List Segment)
    (h : ∀ seg ∈ l, seg.2 ≠ MplCode.CLOSEPOLY → seg.1.length = codeConsumed seg.2) :
    ((l.map (fun seg =>
        if seg.2 = MplCode.CLOSEPOLY then ([] : List Point) else seg.1)).flatten).length =
      ((l.map (fun seg => PATH_DICT seg.2)).map charConsumed).sum ∧
    (l.map (fun seg => PATH_DICT seg.2)).length ≤
      ((l.map (fun seg =>
        if seg.2 = MplCode.CLOSEPOLY then ([] : List Point) else seg.1)).flatten).length +
        (l.map (fun seg => PATH_DICT seg.2)).count 'Z' := by
  induction l with
  | nil => simp
  | cons seg rest ih =>
    obtain ⟨ih1, ih2⟩ := ih (fun s hs hz => h s (List.mem_cons_of_mem _ hs) hz)
    have hcc := charConsumed_PATH_DICT seg.2
    by_cases hz : seg.2 = MplCode.CLOSEPOLY
    · have hZ : PATH_DICT seg.2 = 'Z' := (PATH_DICT_eq_Z seg.2).mpr hz
      have hc0 : charConsumed (PATH_DICT seg.2) = 0 := by
        rw [hcc, hz]
        rfl
      constructor
      · simp only [List.map_cons, List.flatten_cons, List.length_append,
          List.sum_cons, if_pos hz, List.length_nil, hc0]
        omega
      · simp only [List.map_cons, List.flatten_cons, List.length_append,
          List.length_cons, List.count_cons, if_pos hz, List.length_nil, hZ,
          beq_self_eq_true, if_true]
        omega
    · have hZ : PATH_DICT seg.2 ≠ 'Z' := fun e => hz ((PATH_DICT_eq_Z seg.2).mp e)
      have hlen : seg.1.length = codeConsumed seg.2 := h seg (List.mem_cons_self _ _) hz
      have hpos : 1 ≤ codeConsumed seg.2 := by
        cases hc : seg.2 <;> simp [codeConsumed] <;> exact absurd hc hz
      have hcount : ((PATH_DICT seg.2 == 'Z') : Bool) = false := by
        simp [hZ]
      constructor
      · simp only [List.map_cons, List.flatten_cons, List.length_append,
          List.sum_cons, if_neg hz, hcc, hlen]
        omega
      · simp only [List.map_cons, List.flatten_cons, List.length_append,
          List.length_cons, List.count_cons, if_neg hz, hcount, if_false]
        omega

theorem svg_path_none_invariant (l : List Segment)
    (h : ∀ seg ∈ l, seg.2 ≠ MplCode.CLOSEPOLY → seg.1.length = codeConsumed seg.2) :
    ((SVG_path l none).2.map charConsumed).sum = (SVG_path l none).1.length ∧
    (SVG_path l none).2.length ≤
      (SVG_path l none).1.length + (SVG_path l none).2.count 'Z' := by
  obtain ⟨h1, h2⟩ := svg_segments_invariant l h
  by_cases hl : l = []
  · subst hl
    exact ⟨rfl, Nat.le_refl 0⟩
  · have hrw : SVG_path l none =
        ((l.map (fun seg =>
          if seg.2 = MplCode.CLOSEPOLY then ([] : List Point) else seg.1)).flatten,
         l.map (fun seg => PATH_DICT seg.2)) := by
      simp only [SVG_path]
      rw [if_neg (by simp [List.isEmpty_iff, hl])]
      rw [List.map_map, List.map_map]
      rfl
    rw [hrw]
    exact ⟨h1.symm, h2⟩

/-- C7 (amended): for every path encoded by SVG_path (the input being the
well-formed segment stream of a matplotlib path, whose non-ClosePath
chunks have the command-specific arity), the vertices consumed by the
returned command sequence — one per Move or Line, two per Quadratic,
three per Cubic, none per ClosePath — equal the length of the returned
vertex array; and the number of commands is at most the number of
vertices plus the number of ClosePath commands (the bound without that
correction is refuted by any closed polygon). -/
theorem c7_vertex_consumption (path : List Segment) (transform : Option Mat3)
    (h : ∀ seg ∈ path, seg.2 ≠ MplCode.CLOSEPOLY → seg.1.length = codeConsumed seg.2) :
    ((SVG_path path transform).2.map charConsumed).sum =
      (SVG_path path transform).1.length ∧
    (SVG_path path transform).2.length ≤
      (SVG_path path transform).1.length + (SVG_path path transform).2.count 'Z' := by
  cases transform with
  | none => exact svg_path_none_invariant path h
  | some t =>
    have hrw : SVG_path path (some t) =
        SVG_path (path.map (fun seg => (seg.1.map (applyAffine t), seg.2))) none := rfl
    rw [hrw]
    refine svg_path_none_invariant _ ?_
    intro seg hseg hz
    obtain ⟨s0, hs0, rfl⟩ := List.mem_map.mp hseg
    simpa using h s0 hs0 hz

/-- C7 counterexample: the segment stream of a closed triangle (Move, two
Lines, ClosePath) produces four commands but only three vertices, refuting
the claimed bound that the number of commands is at most the number of
vertices. -/
theorem c7_ctrex_closed_polygon :
    ¬ ((SVG_path [([(0, 0)], MplCode.MOVETO), ([(1, 0)], MplCode.LINETO),
        ([(0, 1)], MplCode.LINETO), ([(0, 0)], MplCode.CLOSEPOLY)] none).2.length ≤
      (SVG_path [([(0, 0)], MplCode.MOVETO), ([(1, 0)], MplCode.LINETO),
        ([(0, 1)], MplCode.LINETO), ([(0, 0)], MplCode.CLOSEPOLY)] none).1.length) := by
  decide

/-- C7 witness: a concrete stream with one command of every kind satisfies
the arity hypothesis and the amended invariant. -/
theorem c7_vertex_consumption_witness :
    (∀ seg ∈ [([((0 : ℚ), (0 : ℚ))], MplCode.MOVETO), ([(1, 0)], MplCode.LINETO),
        ([(2, 0), (3, 1)], MplCode.CURVE3), ([(4, 1), (5, 2), (6, 2)], MplCode.CURVE4),
        ([(0, 0)], MplCode.CLOSEPOLY)],
      seg.2 ≠ MplCode.CLOSEPOLY → seg.1.length = codeConsumed seg.2) ∧
    (((SVG_path [([((0 : ℚ), (0 : ℚ))], MplCode.MOVETO), ([(1, 0)], MplCode.LINETO),
        ([(2, 0), (3, 1)], MplCode.CURVE3), ([(4, 1), (5, 2), (6, 2)], MplCode.CURVE4),
        ([(0, 0)], MplCode.CLOSEPOLY)] none).2.map charConsumed).sum =
      (SVG_path [([((0 : ℚ), (0 : ℚ))], MplCode.MOVETO), ([(1, 0)], MplCode.LINETO),
        ([(2, 0), (3, 1)], MplCode.CURVE3), ([(4, 1), (5, 2), (6, 2)], MplCode.CURVE4),
        ([(0, 0)], MplCode.CLOSEPOLY)] none).1.length ∧
      (SVG_path [([((0 : ℚ), (0 : ℚ))], MplCode.MOVETO), ([(1, 0)], MplCode.LINETO),
        ([(2, 0), (3, 1)], MplCode.CURVE3), ([(4, 1), (5, 2), (6, 2)], MplCode.CURVE4),
        ([(0, 0)], MplCode.CLOSEPOLY)] none).2.length ≤
      (SVG_path [([((0 : ℚ), (0 : ℚ))], MplCode.MOVETO), ([(1, 0)], MplCode.LINETO),
        ([(2, 0), (3, 1)], MplCode.CURVE3), ([(4, 1), (5, 2), (6, 2)], MplCode.CURVE4),
        ([(0, 0)], MplCode.CLOSEPOLY)] none).1.length +
        (SVG_path [([((0 : ℚ), (0 : ℚ))], MplCode.MOVETO), ([(1, 0)], MplCode.LINETO),
        ([(2, 0), (3, 1)], MplCode.CURVE3), ([(4, 1), (5, 2), (6, 2)], MplCode.CURVE4),
        ([(0, 0)], MplCode.CLOSEPOLY)] none).2.count 'Z') :=
  ⟨by decide,
    c7_vertex_consumption [([((0 : ℚ), (0 : ℚ))], MplCode.MOVETO),
      ([(1, 0)], MplCode.LINETO), ([(2, 0), (3, 1)], MplCode.CURVE3),
      ([(4, 1), (5, 2), (6, 2)], MplCode.CURVE4), ([(0, 0)], MplCode.CLOSEPOLY)]
      none (by decide)⟩

theorem hexDigit_lt (c : Char) (v : Nat) (h : hexDigit? c = some v) : v < 16 := by
  simp only [hexDigit?] at h
  split at h
  next h1 =>
    simp only [Option.some.injEq] at h
    omega
  next h1 =>
    split at h
    next h2 =>
      simp only [Option.some.injEq] at h
      omega
    next h2 =>
      split at h
      next h3 =>
        simp only [Option.some.injEq] at h
        omega
      next h3 =>
        exact absurd h (by simp)

theorem hexDigit_hexChar : ∀ v, v < 16 → hexDigit? (hexChar v) = some v := by
  decide

theorem pyInt_mul_div255 (h : ℕ) : pyInt (255 * ((h : ℚ) / 255)) = h := by
  have e : (255 : ℚ) * ((h : ℚ) / 255) = (h : ℚ) := by
    field_simp
  rw [e]
  unfold pyInt
  rw [if_pos (by positivity)]
  exact Int.floor_natCast h

theorem formatHexByte_div255 (h : ℕ) : formatHexByte ((h : ℚ) / 255) = toHexByte h := by
  unfold formatHexByte
  rw [pyInt_mul_div255]
  simp

theorem canonicalChar_spec (c : Char)
    (hc : (match hexDigit? c with
           | some v => hexChar v == c
           | none => false) = true) :
    ∃ v, hexDigit? c = some v ∧ hexChar v = c ∧ v < 16 := by
  cases hd : hexDigit? c with
  | none =>
    rw [hd] at hc
    simp at hc
  | some v =>
    rw [hd] at hc
    exact ⟨v, rfl, by simpa using hc, hexDigit_lt c v hd⟩

theorem color_to_hex_canonical_fixed (s : String)
    (h : isCanonicalHexColor s = true) :
    color_to_hex (PyColor.str s) = Except.ok s := by
  unfold isCanonicalHexColor at h
  split at h
  next c1 c2 c3 c4 c5 c6 hsl =>
    simp only [List.all_cons, List.all_nil, Bool.and_true, Bool.and_eq_true] at h
    obtain ⟨h1, h2, h3, h4, h5, h6⟩ := h
    obtain ⟨v1, hd1, hc1, hv1⟩ := canonicalChar_spec c1 h1
    obtain ⟨v2, hd2, hc2, hv2⟩ := canonicalChar_spec c2 h2
    obtain ⟨v3, hd3, hc3, hv3⟩ := canonicalChar_spec c3 h3
    obtain ⟨v4, hd4, hc4, hv4⟩ := canonicalChar_spec c4 h4
    obtain ⟨v5, hd5, hc5, hv5⟩ := canonicalChar_spec c5 h5
    obtain ⟨v6, hd6, hc6, hv6⟩ := canonicalChar_spec c6 h6
    have hne1 : s ≠ "none" := by
      intro e
      rw [e] at hsl
      have := congrArg List.length hsl
      simp at this
    have hne2 : s ≠ "None" := by
      intro e
      rw [e] at hsl
      have := congrArg List.length hsl
      simp at this
    have hrgb : to_rgb s = Except.ok (((16 * v1 + v2 : ℕ) : ℚ) / 255,
        ((16 * v3 + v4 : ℕ) : ℚ) / 255, ((16 * v5 + v6 : ℕ) : ℚ) / 255) := by
      unfold to_rgb
      rw [hsl]
      split
      next a b c d e f heq =>
        simp only [List.cons.injEq, and_true] at heq
        obtain ⟨-, ha, hb, hc, hd, he, hf⟩ := heq
        rw [← ha, ← hb, ← hc, ← hd, ← he, ← hf]
        rw [hd1, hd2, hd3, hd4, hd5, hd6]
      next hne =>
        exact absurd rfl (hne c1 c2 c3 c4 c5 c6)
    have e1 : toHexByte (16 * v1 + v2) = String.mk [c1, c2] := by
      unfold toHexByte
      have d1 : (16 * v1 + v2) / 16 = v1 := by omega
      have d2 : (16 * v1 + v2) % 16 = v2 := by omega
      rw [d1, d2, hc1, hc2]
    have e2 : toHexByte (16 * v3 + v4) = String.mk [c3, c4] := by
      unfold toHexByte
      have d1 : (16 * v3 + v4) / 16 = v3 := by omega
      have d2 : (16 * v3 + v4) % 16 = v4 := by omega
      rw [d1, d2, hc3, hc4]
    have e3 : toHexByte (16 * v5 + v6) = String.mk [c5, c6] := by
      unfold toHexByte
      have d1 : (16 * v5 + v6) / 16 = v5 := by omega
      have d2 : (16 * v5 + v6) % 16 = v6 := by omega
      rw [d1, d2, hc5, hc6]
    have hs : s = String.mk ['#', c1, c2, c3, c4, c5, c6] := by
      rcases s with ⟨data⟩
      have hd : data = ['#', c1, c2, c3, c4, c5, c6] := hsl
      rw [hd]
    unfold color_to_hex
    rw [if_neg (by simp [hne1, hne2])]
    split
    next heq =>
      exact absurd heq (by simp)
    next s' heq =>
      have hss : s' = s := by
        injection heq with h'
        exact h'.symm
      subst hss
      rw [hrgb]
      show Except.ok ("#" ++ formatHexByte (((16 * v1 + v2 : ℕ) : ℚ) / 255) ++
          formatHexByte (((16 * v3 + v4 : ℕ) : ℚ) / 255) ++
          formatHexByte (((16 * v5 + v6 : ℕ) : ℚ) / 255)) = Except.ok s'
      rw [formatHexByte_div255, formatHexByte_div255, formatHexByte_div255,
        e1, e2, e3, hs]
      rfl
  next =>
    exact absurd h (by simp)

/-- C8: color_to_hex maps each sentinel input "none", "None" and None to
"none", and is idempotent on already-canonical six-hex-digit color
strings: composing it with itself agrees with a single application (in
fact every canonical string is a fixed point). -/
theorem c8_color_to_hex_idempotent (s : String)
    (h : isCanonicalHexColor s = true) :
    color_to_hex (PyColor.str ("none")) = Except.ok ("none") ∧
    color_to_hex (PyColor.str ("None")) = Except.ok ("none") ∧
    color_to_hex PyColor.pynone = Except.ok ("none") ∧
    (color_to_hex (PyColor.str s)).bind (fun t => color_to_hex (PyColor.str t)) =
      color_to_hex (PyColor.str s) := by
  refine ⟨by decide, by decide, by decide, ?_⟩
  rw [color_to_hex_canonical_fixed s h]
  show color_to_hex (PyColor.str s) = Except.ok s
  exact color_to_hex_canonical_fixed s h

/-- C8 witness: the canonical string of the spec example is a concrete
input on which the composition agrees with the single application. -/
theorem c8_color_to_hex_idempotent_witness :
    isCanonicalHexColor ("#0000FF") = true ∧
    (color_to_hex (PyColor.str ("#0000FF"))).bind
      (fun t => color_to_hex (PyColor.str t)) =
      color_to_hex (PyColor.str ("#0000FF")) :=
  ⟨by decide, (c8_color_to_hex_idempotent ("#0000FF") (by decide)).2.2.2⟩

theorem cycGet_mem {α : Type} (l : List α) (d : α) (i : Nat) (h : l ≠ []) :
    cycGet l d i ∈ l := by
  unfold cycGet
  have hlt : i % l.length < l.length := Nat.mod_lt _ (List.length_pos.mpr h)
  rw [List.getD_eq_getElem l d hlt]
  exact List.getElem_mem hlt

theorem collEmit_ok (pc oc : String) (st : CollStyles) (p : PathTup) (m : Mat3)
    (o : Point) (ec0 fc0 : PyColor) (lw : ℚ) (ech fch : String)
    (he : color_to_hex ec0 = Except.ok ech) (hf : color_to_hex fc0 = Except.ok fch) :
    collEmit pc oc st (p, m, o, ec0, lw, fc0) = Except.ok
      { vertices := p.1.map (applyAffine m),
        coordinates := if pc = "figure" then "points" else pc,
        pathcodes := p.2,
        style := [("edgecolor", SVal.s ech), ("facecolor", SVal.s fch),
                  ("edgewidth", SVal.q lw), ("dasharray", SVal.s ("10,0")),
                  ("alpha", SVal.tok st.alpha), ("zorder", SVal.tok st.zorder)],
        offset := some o, offset_coordinates := oc } := by
  simp only [collEmit]
  rw [he, hf]

theorem collLoop_ok (pc oc : String) (st : CollStyles) (l : List CollTup)
    (h : ∀ t ∈ l, ∃ c, collEmit pc oc st t = Except.ok c) :
    (collLoop pc oc st l).2 = none ∧
    (collLoop pc oc st l).1.length = l.length ∧
    ∀ i : Nat, (collLoop pc oc st l).1.get? i =
      (l.get? i).bind (fun t => (collEmit pc oc st t).toOption) := by
  induction l with
  | nil =>
    refine ⟨rfl, rfl, fun i => ?_⟩
    cases i <;> rfl
  | cons t ts ih =>
    obtain ⟨c, hc⟩ := h t (List.mem_cons_self t ts)
    obtain ⟨ih1, ih2, ih3⟩ := ih (fun u hu => h u (List.mem_cons_of_mem _ hu))
    refine ⟨?_, ?_, ?_⟩
    · unfold collLoop
      rw [hc]
      exact ih1
    · unfold collLoop
      rw [hc]
      simpa using ih2
    · intro i
      unfold collLoop
      rw [hc]
      cases i with
      | zero => simp [hc, Except.toOption]
      | succ n => simpa using ih3 n

theorem iter_path_collection_eq (paths : List PathTup) (path_transforms : List Mat3)
    (offsets : List Point) (styles : CollStyles)
    (hp : paths ≠ []) (ho : offsets ≠ []) (hlw : styles.linewidth ≠ []) :
    iter_path_collection paths path_transforms offsets styles =
      (List.range (max paths.length offsets.length)).map (fun i =>
        (cycGet paths ([], []) i,
         cycGet (if path_transforms.isEmpty then [eye3] else path_transforms) eye3 i,
         cycGet offsets (0, 0) i,
         cycGet (if styles.edgecolor.isEmpty then [PyColor.str ("none")]
           else styles.edgecolor) (PyColor.str ("none")) i,
         cycGet styles.linewidth 0 i,
         cycGet (if styles.facecolor.isEmpty then [PyColor.str ("none")]
           else styles.facecolor) (PyColor.str ("none")) i)) := by
  have hp' : paths.isEmpty = false := by simpa [List.isEmpty_iff] using hp
  have ho' : offsets.isEmpty = false := by simpa [List.isEmpty_iff] using ho
  have hlw' : styles.linewidth.isEmpty = false := by
    simpa [List.isEmpty_iff] using hlw
  have hptr : (if path_transforms.isEmpty then [eye3]
      else path_transforms).isEmpty = false := by
    split
    · rfl
    · next hne => exact Bool.eq_false_iff.mpr hne
  have hec' : (if styles.edgecolor.isEmpty then [PyColor.str ("none")]
      else styles.edgecolor).isEmpty = false := by
    split
    · rfl
    · next hne => exact Bool.eq_false_iff.mpr hne
  have hfc' : (if styles.facecolor.isEmpty then [PyColor.str ("none")]
      else styles.facecolor).isEmpty = false := by
    split
    · rfl
    · next hne => exact Bool.eq_false_iff.mpr hne
  unfold iter_path_collection
  simp only [hp', ho', hlw', hptr, hec', hfc', Bool.false_or, Bool.or_false,
    Bool.or_self, if_false]
  rw [if_neg Bool.false_ne_true]

theorem cyc_color_ok (cl : List PyColor) (i : Nat)
    (hv : ∀ c ∈ cl, ∃ s, color_to_hex c = Except.ok s) :
    ∃ s, color_to_hex (cycGet (if cl.isEmpty then [PyColor.str ("none")] else cl)
      (PyColor.str ("none")) i) = Except.ok s := by
  by_cases hce : cl.isEmpty = true
  · rw [if_pos hce]
    refine ⟨"none", ?_⟩
    have h1 : cycGet [PyColor.str ("none")] (PyColor.str ("none")) i =
        PyColor.str ("none") := by
      unfold cycGet
      simp
    rw [h1]
    decide
  · rw [if_neg hce]
    refine hv _ (cycGet_mem cl (PyColor.str ("none")) i ?_)
    intro e
    rw [e] at hce
    exact hce rfl

/-- C3: with offset_order other than "before", the default
draw_path_collection emits exactly N = max(len(paths), len(offsets))
draw_path calls; the i-th call takes the element at index i modulo the
sequence length from each contributing sequence — paths, transforms,
offsets, edgecolors, linewidths, facecolors — with an empty transform
sequence treated as the single identity matrix and empty color sequences
as the single entry "none" (colors passing through color_to_hex, the dash
pattern fixed at "10,0" and alpha and zorder copied verbatim). -/
theorem c3_collection_broadcast (paths : List PathTup) (path_coordinates : String)
    (path_transforms : List Mat3) (offsets : List Point)
    (offset_coordinates : String) (offset_order : String) (styles : CollStyles)
    (horder : offset_order ≠ "before")
    (hp : paths ≠ []) (ho : offsets ≠ []) (hlw : styles.linewidth ≠ [])
    (hec : ∀ c ∈ styles.edgecolor, ∃ s, color_to_hex c = Except.ok s)
    (hfc : ∀ c ∈ styles.facecolor, ∃ s, color_to_hex c = Except.ok s) :
    (draw_path_collection paths path_coordinates path_transforms offsets
        offset_coordinates offset_order styles).2 = none ∧
    (draw_path_collection paths path_coordinates path_transforms offsets
        offset_coordinates offset_order styles).1.length =
      max paths.length offsets.length ∧
    ∀ i : Nat, i < max paths.length offsets.length →
      ∃ (call : DrawPathCall) (ech fch : String),
        (draw_path_collection paths path_coordinates path_transforms offsets
          offset_coordinates offset_order styles).1.get? i = some call ∧
        color_to_hex (cycGet (if styles.edgecolor.isEmpty then [PyColor.str ("none")]
          else styles.edgecolor) (PyColor.str ("none")) i) = Except.ok ech ∧
        color_to_hex (cycGet (if styles.facecolor.isEmpty then [PyColor.str ("none")]
          else styles.facecolor) (PyColor.str ("none")) i) = Except.ok fch ∧
        call = { vertices := (cycGet paths ([], []) i).1.map
                   (applyAffine (cycGet (if path_transforms.isEmpty then [eye3]
                     else path_transforms) eye3 i)),
                 coordinates := if path_coordinates = "figure" then "points"
                   else path_coordinates,
                 pathcodes := (cycGet paths ([], []) i).2,
                 style := [("edgecolor", SVal.s ech), ("facecolor", SVal.s fch),
                           ("edgewidth", SVal.q (cycGet styles.linewidth 0 i)),
                           ("dasharray", SVal.s ("10,0")),
                           ("alpha", SVal.tok styles.alpha),
                           ("zorder", SVal.tok styles.zorder)],
                 offset := some (cycGet offsets (0, 0) i),
                 offset_coordinates := offset_coordinates } := by
  have hrw : draw_path_collection paths path_coordinates path_transforms offsets
      offset_coordinates offset_order styles =
      collLoop path_coordinates offset_coordinates styles
        (iter_path_collection paths path_transforms offsets styles) := by
    unfold draw_path_collection
    rw [if_neg horder]
  rw [hrw, iter_path_collection_eq paths path_transforms offsets styles hp ho hlw]
  have hall : ∀ t ∈ (List.range (max paths.length offsets.length)).map (fun i =>
      (cycGet paths ([], []) i,
       cycGet (if path_transforms.isEmpty then [eye3] else path_transforms) eye3 i,
       cycGet offsets (0, 0) i,
       cycGet (if styles.edgecolor.isEmpty then [PyColor.str ("none")]
         else styles.edgecolor) (PyColor.str ("none")) i,
       cycGet styles.linewidth 0 i,
       cycGet (if styles.facecolor.isEmpty then [PyColor.str ("none")]
         else styles.facecolor) (PyColor.str ("none")) i)),
      ∃ c, collEmit path_coordinates offset_coordinates styles t = Except.ok c := by
    intro t ht
    obtain ⟨i, hi, rfl⟩ := List.mem_map.mp ht
    obtain ⟨ech, hech⟩ := cyc_color_ok styles.edgecolor i hec
    obtain ⟨fch, hfch⟩ := cyc_color_ok styles.facecolor i hfc
    exact ⟨_, collEmit_ok path_coordinates offset_coordinates styles _ _ _ _ _ _
      ech fch hech hfch⟩
  obtain ⟨h1, h2, h3⟩ := collLoop_ok path_coordinates offset_coordinates styles _ hall
  refine ⟨h1, ?_, ?_⟩
  · rw [h2]
    simp
  · intro i hi
    obtain ⟨ech, hech⟩ := cyc_color_ok styles.edgecolor i hec
    obtain ⟨fch, hfch⟩ := cyc_color_ok styles.facecolor i hfc
    refine ⟨_, ech, fch, ?_, hech, hfch, rfl⟩
    rw [h3 i]
    rw [List.get?_map, List.get?_range hi]
    simp only [Option.map_some', Option.some_bind]
    rw [collEmit_ok path_coordinates offset_coordinates styles _ _ _ _ _ _
      ech fch hech hfch]
    rfl

/-- C3 witness: three paths against five offsets with empty transform and
color sequences, an explicit linewidth sequence of one element and
offset_order "after". -/
theorem c3_collection_broadcast_witness :
    (("after" : String) ≠ "before" ∧
      ([([((0 : ℚ), (0 : ℚ))], ['M']), ([(1, 1)], ['M']), ([(2, 2)], ['M'])] :
        List PathTup) ≠ [] ∧
      ([((0 : ℚ), (0 : ℚ)), (1, 0), (2, 0), (3, 0), (4, 0)] : List Point) ≠ [] ∧
      (⟨[], [], [2], 5, 7⟩ : CollStyles).linewidth ≠ []) ∧
    (draw_path_collection
      [([((0 : ℚ), (0 : ℚ))], ['M']), ([(1, 1)], ['M']), ([(2, 2)], ['M'])]
      ("data") [] [((0 : ℚ), (0 : ℚ)), (1, 0), (2, 0), (3, 0), (4, 0)] ("data")
      ("after") ⟨[], [], [2], 5, 7⟩).2 = none ∧
    (draw_path_collection
      [([((0 : ℚ), (0 : ℚ))], ['M']), ([(1, 1)], ['M']), ([(2, 2)], ['M'])]
      ("data") [] [((0 : ℚ), (0 : ℚ)), (1, 0), (2, 0), (3, 0), (4, 0)] ("data")
      ("after") ⟨[], [], [2], 5, 7⟩).1.length = 5 := by
  refine ⟨⟨by decide, by decide, by decide, by decide⟩, ?_, ?_⟩
  · exact (c3_collection_broadcast
      [([((0 : ℚ), (0 : ℚ))], ['M']), ([(1, 1)], ['M']), ([(2, 2)], ['M'])]
      ("data") [] [((0 : ℚ), (0 : ℚ)), (1, 0), (2, 0), (3, 0), (4, 0)] ("data")
      ("after") ⟨[], [], [2], 5, 7⟩ (by decide) (by decide) (by decide) (by decide)
      (by simp) (by simp)).1
  · have h := (c3_collection_broadcast
      [([((0 : ℚ), (0 : ℚ))], ['M']), ([(1, 1)], ['M']), ([(2, 2)], ['M'])]
      ("data") [] [((0 : ℚ), (0 : ℚ)), (1, 0), (2, 0), (3, 0), (4, 0)] ("data")
      ("after") ⟨[], [], [2], 5, 7⟩ (by decide) (by decide) (by decide) (by decide)
      (by simp) (by simp)).2.1
    simpa using h

end Mplexporter
